import Mathlib

/-!
Verification of the structured response resolver in
`src/nova_act/samples/facebook_marketplace.py` (lines 34-42 and 90-130).

The resolver receives the extraction result (`result.parsed_response`, a
JSON-like value), the agent's schema hint (`result.matches_schema`) and the
raw textual response (`result.response`), and either prints a validated list
of marketplace items (modelled as `ParseOutcome.Success`), prints a failure
diagnostic (modelled as `ParseOutcome.Failure`), or lets a pydantic
`ValidationError` escape unhandled (modelled as `Except.error`).
-/

namespace FacebookMarketplace

/-- JSON-like values, the type of `result.parsed_response`. -/
inductive Json where
  | null
  | bool (b : Bool)
  | num (n : Int)
  | str (s : String)
  | arr (elems : List Json)
  | obj (kvs : List (String × Json))

/-- First binding of key `k` in a JSON object's field list (Python dict access). -/
def lookupField (kvs : List (String × Json)) (k : String) : Option Json :=
  match kvs with
  | [] => none
  | (k', v) :: rest => if k' = k then some v else lookupField rest k

/-- Whether the value is a JSON sequence: `isinstance(x, list)` (line 116). -/
def Json.isArr : Json → Bool
  | .arr _ => true
  | _ => false

/-- `class MarketplaceItem(BaseModel)` (lines 34-38): four required `str` fields. -/
structure MarketplaceItem where
  title : String
  price : String
  location : String
  time_posted : String
deriving Repr, DecidableEq

/-- `class MarketplaceItems(BaseModel)` (lines 41-42): `items: List[MarketplaceItem]`. -/
structure MarketplaceItems where
  items : List MarketplaceItem
deriving Repr, DecidableEq

/-- Pydantic validation of one required `str` field: the key must be present and
its value must be a string (pydantic does not coerce other JSON types to `str`). -/
def requireStrField (kvs : List (String × Json)) (field : String) : Except String String :=
  match lookupField kvs field with
  | none => .error (field ++ ": Field required")
  | some (.str s) => .ok s
  | some _ => .error (field ++ ": Input should be a valid string")

/-- `MarketplaceItem.model_validate`: the input must be a dict; the four required
fields must be present as strings; extra fields are ignored (pydantic default). -/
def MarketplaceItem.model_validate (j : Json) : Except String MarketplaceItem :=
  match j with
  | .obj kvs =>
    match requireStrField kvs "title" with
    | .error e => .error e
    | .ok t =>
      match requireStrField kvs "price" with
      | .error e => .error e
      | .ok p =>
        match requireStrField kvs "location" with
        | .error e => .error e
        | .ok l =>
          match requireStrField kvs "time_posted" with
          | .error e => .error e
          | .ok tp => .ok ⟨t, p, l, tp⟩
  | _ => .error "Input should be a valid dictionary or instance of MarketplaceItem"

/-- Validation of each element of a list in order, stopping at the first fault:
models `[MarketplaceItem.model_validate(item) for item in result.parsed_response]`
(line 117) and pydantic's validation of the `items: List[MarketplaceItem]` field. -/
def validateAll : List Json → Except String (List MarketplaceItem)
  | [] => .ok []
  | x :: xs =>
    match MarketplaceItem.model_validate x with
    | .error e => .error e
    | .ok r =>
      match validateAll xs with
      | .error e => .error e
      | .ok rs => .ok (r :: rs)

/-- `MarketplaceItems.model_validate` (lines 91 and 104): the input must be a dict
with an `items` key holding a list whose elements all validate as `MarketplaceItem`;
extra keys are ignored (pydantic default). -/
def MarketplaceItems.model_validate (j : Json) : Except String MarketplaceItems :=
  match j with
  | .obj kvs =>
    match lookupField kvs "items" with
    | none => .error "items: Field required"
    | some (.arr elems) =>
      match validateAll elems with
      | .ok rs => .ok ⟨rs⟩
      | .error e => .error e
    | some _ => .error "items: Input should be a valid list"
  | _ => .error "Input should be a valid dictionary or instance of MarketplaceItems"

/-- The outcome the resolver presents: a validated ordered record list on success
(the item print loops, lines 92-99, 105-112, 118-125), or the failure diagnostics
(`Failed to extract items: ...` at line 127 carries no error detail;
`Error parsing response: {e}` plus `Raw response: ...` at lines 129-130 carries
the validation error detail). -/
inductive ParseOutcome where
  | Success (records : List MarketplaceItem)
  | Failure (raw_response : String) (error_detail : Option String)
deriving Repr, DecidableEq

/-- The validation performed at line 91, in the `result.matches_schema` branch. -/
def primaryAttempt (candidate : Json) : Except String MarketplaceItems :=
  MarketplaceItems.model_validate candidate

/-- The validation performed at line 104, the first try of the fallback branch. -/
def secondaryAttempt (candidate : Json) : Except String MarketplaceItems :=
  MarketplaceItems.model_validate candidate

/-- The inner try/except (lines 114-130): if the candidate is a list, validate each
element; a per-element fault is caught at line 128 and reported with its message;
a non-list candidate is reported at line 127 without any error detail. -/
def bareListStep (candidate : Json) (raw_text : String) : ParseOutcome :=
  match candidate with
  | .arr elems =>
    match validateAll elems with
    | .ok items_list => .Success items_list
    | .error e => .Failure raw_text (some e)
  | _ => .Failure raw_text none

/-- The resolver, lines 90-130. When `schema_matched_hint` is true (line 90) the
candidate is validated at line 91 with no surrounding try/except, so a validation
fault escapes as `Except.error`. When the hint is false, the validation at
line 104 is retried inside try/except, falling back to `bareListStep` on fault. -/
def resolve (candidate : Json) (schema_matched_hint : Bool) (raw_text : String) :
    Except String ParseOutcome :=
  if schema_matched_hint then
    match primaryAttempt candidate with
    | .ok items => .ok (.Success items.items)
    | .error e => .error e
  else
    match secondaryAttempt candidate with
    | .ok items => .ok (.Success items.items)
    | .error _ => .ok (bareListStep candidate raw_text)

/-- A well-formed record candidate used in concrete test inputs. -/
def deskJson : Json :=
  .obj [("title", .str "Desk"), ("price", .str "$20"),
        ("location", .str "City"), ("time_posted", .str "2 days")]

/-- A second well-formed record candidate used in concrete test inputs. -/
def chairJson : Json :=
  .obj [("title", .str "Chair"), ("price", .str "$15"),
        ("location", .str "Town"), ("time_posted", .str "3 hours")]

example : MarketplaceItem.model_validate deskJson =
    .ok ⟨"Desk", "$20", "City", "2 days"⟩ := rfl

example : resolve (.obj [("items", .arr [deskJson])]) true "r" =
    .ok (.Success [⟨"Desk", "$20", "City", "2 days"⟩]) := rfl

example : resolve (.arr [deskJson]) false "r" =
    .ok (.Success [⟨"Desk", "$20", "City", "2 days"⟩]) := rfl

example : resolve (.arr [deskJson]) true "r" =
    .error "Input should be a valid dictionary or instance of MarketplaceItems" := rfl

example : resolve (.str "not json-like") false "not json-like" =
    .ok (.Failure "not json-like" none) := rfl

/-- A field that validates as a required string was present with a string value. -/
lemma requireStrField_ok_lookup {kvs : List (String × Json)} {f s : String}
    (h : requireStrField kvs f = .ok s) : lookupField kvs f = some (.str s) := by
  unfold requireStrField at h
  cases hl : lookupField kvs f with
  | none => rw [hl] at h; exact Except.noConfusion h
  | some v =>
    rw [hl] at h
    cases v <;> first
      | exact Except.noConfusion h
      | (rename_i s'; cases h; rfl)

/-- An object missing any of the four required fields fails item validation. -/
lemma item_invalid_of_missing_field {kvs : List (String × Json)}
    (h : lookupField kvs "title" = none ∨ lookupField kvs "price" = none ∨
         lookupField kvs "location" = none ∨ lookupField kvs "time_posted" = none) :
    ∃ e, MarketplaceItem.model_validate (.obj kvs) = .error e := by
  cases h1 : requireStrField kvs "title" with
  | error e => exact ⟨e, by simp [MarketplaceItem.model_validate, h1]⟩
  | ok t =>
    cases h2 : requireStrField kvs "price" with
    | error e => exact ⟨e, by simp [MarketplaceItem.model_validate, h1, h2]⟩
    | ok p =>
      cases h3 : requireStrField kvs "location" with
      | error e => exact ⟨e, by simp [MarketplaceItem.model_validate, h1, h2, h3]⟩
      | ok l =>
        cases h4 : requireStrField kvs "time_posted" with
        | error e => exact ⟨e, by simp [MarketplaceItem.model_validate, h1, h2, h3, h4]⟩
        | ok tp =>
          exfalso
          rcases h with h | h | h | h
          · rw [requireStrField_ok_lookup h1] at h; exact Option.noConfusion h
          · rw [requireStrField_ok_lookup h2] at h; exact Option.noConfusion h
          · rw [requireStrField_ok_lookup h3] at h; exact Option.noConfusion h
          · rw [requireStrField_ok_lookup h4] at h; exact Option.noConfusion h

/-- If some element of the list fails item validation, validating the whole list fails. -/
lemma validateAll_error_of_mem {x : Json} {elems : List Json} {e : String}
    (hx : x ∈ elems) (he : MarketplaceItem.model_validate x = .error e) :
    ∃ e', validateAll elems = .error e' := by
  induction elems with
  | nil => cases hx
  | cons a as ih =>
    rcases List.mem_cons.mp hx with h | h
    · subst h
      exact ⟨e, by simp [validateAll, he]⟩
    · rcases ih h with ⟨e', he'⟩
      cases ha : MarketplaceItem.model_validate a with
      | error ea => exact ⟨ea, by simp [validateAll, ha]⟩
      | ok r => exact ⟨e', by simp [validateAll, ha, he']⟩

/-- Claim C1 counterexample: with `schema_matched_hint = true` and a scalar candidate,
the validation fault raised at line 91 escapes the resolver as an unhandled fault
(`Except.error`), so it is not converted into a `Failure` outcome as claimed. -/
theorem resolve_hint_true_fault_escapes :
    resolve (.str "not json-like") true "not json-like" =
      .error "Input should be a valid dictionary or instance of MarketplaceItems" := rfl

/-- Claim C1 (amended): when `schema_matched_hint` is false, every parsing/validation
fault is caught inside the resolver and converted into a `ParseOutcome`; no fault
escapes. (When the hint is true, a validation fault escapes unhandled.) -/
theorem resolve_no_fault_when_hint_false (candidate : Json) (raw_text : String) :
    ∃ outcome, resolve candidate false raw_text = .ok outcome := by
  cases h : secondaryAttempt candidate with
  | ok items => exact ⟨.Success items.items, by simp [resolve, h]⟩
  | error e => exact ⟨bareListStep candidate raw_text, by simp [resolve, h]⟩

/-- Claim C2 counterexample: for a bare list holding one well-formed record, the
keyed-items validation step fails, yet with the hint true the chain does not advance
(the fault escapes), while with the hint false it advances to the bare-list strategy
and succeeds — so the chain does not advance on validation failure independently of
the hint. -/
theorem resolve_chain_stops_on_true_hint :
    resolve (.arr [deskJson]) true "raw" =
      .error "Input should be a valid dictionary or instance of MarketplaceItems" ∧
    resolve (.arr [deskJson]) false "raw" =
      .ok (.Success [⟨"Desk", "$20", "City", "2 days"⟩]) := ⟨rfl, rfl⟩

/-- Claim C2 (amended): the candidate is re-validated regardless of the hint, but the
fallback chain advances on validation failure only when `schema_matched_hint` is
false; when the hint is true, the same validation failure escapes unhandled instead
of advancing the chain. -/
theorem resolve_hint_gates_fallback (candidate : Json) (raw_text : String) (e : String)
    (h : MarketplaceItems.model_validate candidate = .error e) :
    resolve candidate true raw_text = .error e ∧
    resolve candidate false raw_text = .ok (bareListStep candidate raw_text) := by
  constructor <;> simp [resolve, primaryAttempt, secondaryAttempt, h]

/-- Witness for the amended claim C2 at the scalar candidate `"oops"`. -/
theorem resolve_hint_gates_fallback_witness :
    MarketplaceItems.model_validate (.str "oops") =
      .error "Input should be a valid dictionary or instance of MarketplaceItems" ∧
    (resolve (.str "oops") true "raw" =
      .error "Input should be a valid dictionary or instance of MarketplaceItems" ∧
     resolve (.str "oops") false "raw" = .ok (bareListStep (.str "oops") "raw")) :=
  ⟨rfl, resolve_hint_gates_fallback (.str "oops") "raw" _ rfl⟩

/-- Claim C7: the secondary parse attempt (line 104) computes the same function of the
candidate as the primary attempt (line 91) — both are
`MarketplaceItems.model_validate`, so they succeed on exactly the same candidates and
produce the same record list. -/
theorem secondary_eq_primary :
    ∀ candidate, secondaryAttempt candidate = primaryAttempt candidate := fun _ => rfl

/-- Claim C8: the resolver is deterministic and stateless — it is a pure function of
its three inputs, so two invocations on the same inputs yield identical outcomes. -/
theorem resolve_deterministic :
    ∀ candidate hint raw_text,
      resolve candidate hint raw_text = resolve candidate hint raw_text :=
  fun _ _ _ => rfl

/-- Claim C10: the empty bare sequence (with the hint false) resolves to `Success`
with an empty record list via the bare-list strategy — it is not a structural
mismatch. -/
theorem resolve_empty_bare_list (raw_text : String) :
    resolve (.arr []) false raw_text = .ok (.Success []) := rfl

/-- Claim C3: if the candidate's element list (whether bare or under the `items` key)
contains an object missing one of the four required string fields, the resolver never
returns a `Success` — the parse attempt containing the malformed element fails as a
whole, so no partial inclusion of records is possible, for either hint value. -/
theorem resolve_no_partial_success
    (candidate : Json) (hint : Bool) (raw_text : String)
    (elems : List Json) (bad : List (String × Json))
    (hmem : Json.obj bad ∈ elems)
    (hmissing : lookupField bad "title" = none ∨ lookupField bad "price" = none ∨
                lookupField bad "location" = none ∨ lookupField bad "time_posted" = none)
    (hshape : candidate = .arr elems ∨
              ∃ kvs, candidate = .obj kvs ∧ lookupField kvs "items" = some (.arr elems)) :
    ∀ records, resolve candidate hint raw_text ≠ .ok (.Success records) := by
  intro records hcontra
  obtain ⟨e, he⟩ := item_invalid_of_missing_field hmissing
  obtain ⟨e', he'⟩ := validateAll_error_of_mem hmem he
  rcases hshape with h | ⟨kvs, hc, hk⟩
  · subst h
    cases hint <;>
      simp [resolve, primaryAttempt, secondaryAttempt,
            MarketplaceItems.model_validate, bareListStep, he'] at hcontra
  · subst hc
    have he2 : MarketplaceItems.model_validate (.obj kvs) = .error e' := by
      simp [MarketplaceItems.model_validate, hk, he']
    cases hint <;>
      simp [resolve, primaryAttempt, secondaryAttempt, he2, bareListStep] at hcontra

/-- Witness for claim C3: a bare singleton list whose element lacks the `price`,
`location` and `time_posted` fields does not resolve to any `Success`. -/
theorem resolve_no_partial_success_witness :
    Json.obj [("title", Json.str "Desk")] ∈ [Json.obj [("title", Json.str "Desk")]] ∧
    (lookupField [("title", Json.str "Desk")] "title" = none ∨
     lookupField [("title", Json.str "Desk")] "price" = none ∨
     lookupField [("title", Json.str "Desk")] "location" = none ∨
     lookupField [("title", Json.str "Desk")] "time_posted" = none) ∧
    resolve (.arr [Json.obj [("title", Json.str "Desk")]]) false "raw" ≠
      .ok (.Success []) :=
  ⟨List.Mem.head _, Or.inr (Or.inl rfl),
   resolve_no_partial_success (.arr [Json.obj [("title", Json.str "Desk")]]) false "raw"
     [Json.obj [("title", Json.str "Desk")]] [("title", Json.str "Desk")]
     (List.Mem.head _) (Or.inr (Or.inl rfl)) (Or.inl rfl) []⟩

/-- Claim C4: a candidate object whose `items` key holds a list in which every element
validates resolves to `Success` with the validated records in original order, for
either value of the hint; the witness below instantiates this at `{"items": []}`. -/
theorem resolve_keyed_items_success
    (kvs : List (String × Json)) (elems : List Json) (records : List MarketplaceItem)
    (hint : Bool) (raw_text : String)
    (hitems : lookupField kvs "items" = some (.arr elems))
    (hall : validateAll elems = .ok records) :
    resolve (.obj kvs) hint raw_text = .ok (.Success records) := by
  have h : MarketplaceItems.model_validate (.obj kvs) = .ok ⟨records⟩ := by
    simp [MarketplaceItems.model_validate, hitems, hall]
  cases hint <;> simp [resolve, primaryAttempt, secondaryAttempt, h]

/-- Witness for claim C4 at the empty candidate `{"items": []}`: it resolves to
`Success` with the empty record list. -/
theorem resolve_keyed_items_success_witness :
    lookupField [("items", Json.arr [])] "items" = some (Json.arr []) ∧
    validateAll [] = .ok [] ∧
    resolve (.obj [("items", Json.arr [])]) true "raw" = .ok (.Success []) :=
  ⟨rfl, rfl, resolve_keyed_items_success [("items", Json.arr [])] [] [] true "raw" rfl rfl⟩

/-- Claim C5 counterexample: a bare singleton list holding one well-formed record
(every element validates) does not resolve to `Success` when the hint is true — the
unguarded keyed-items validation at line 91 raises and the fault escapes, so the
tertiary strategy is never reached. -/
theorem resolve_bare_list_true_hint_fails :
    validateAll [chairJson] = .ok [⟨"Chair", "$15", "Town", "3 hours"⟩] ∧
    resolve (.arr [chairJson]) true "raw" =
      .error "Input should be a valid dictionary or instance of MarketplaceItems" :=
  ⟨rfl, rfl⟩

/-- Claim C5 (amended): when `schema_matched_hint` is false, a bare sequence in which
every element validates resolves to `Success` with the records in original order, and
it does so via the bare-list (tertiary) strategy: the keyed-items validation fails on
any bare list. -/
theorem resolve_bare_list_success_hint_false
    (elems : List Json) (records : List MarketplaceItem) (raw_text : String)
    (hall : validateAll elems = .ok records) :
    resolve (.arr elems) false raw_text = .ok (.Success records) ∧
    MarketplaceItems.model_validate (.arr elems) =
      .error "Input should be a valid dictionary or instance of MarketplaceItems" := by
  refine ⟨?_, rfl⟩
  simp [resolve, secondaryAttempt, MarketplaceItems.model_validate, bareListStep, hall]

/-- Witness for the amended claim C5 at a two-element bare list. -/
theorem resolve_bare_list_success_hint_false_witness :
    validateAll [deskJson, chairJson] =
      .ok [⟨"Desk", "$20", "City", "2 days"⟩, ⟨"Chair", "$15", "Town", "3 hours"⟩] ∧
    resolve (.arr [deskJson, chairJson]) false "raw" =
      .ok (.Success [⟨"Desk", "$20", "City", "2 days"⟩,
                     ⟨"Chair", "$15", "Town", "3 hours"⟩]) :=
  ⟨rfl, (resolve_bare_list_success_hint_false [deskJson, chairJson] _ "raw" rfl).1⟩

/-- Claim C6 counterexample: for the scalar candidate `"not json-like"` (hint false),
the resolver returns `Failure` whose `raw_response` is the raw text but whose
`error_detail` is `none` — not the last validation error message (the keyed-items
attempt's message, shown in the second conjunct), which the code discards at
line 127. -/
theorem resolve_scalar_failure_detail_none :
    resolve (.str "not json-like") false "not json-like" =
      .ok (.Failure "not json-like" none) ∧
    (none : Option String) ≠
      some "Input should be a valid dictionary or instance of MarketplaceItems" :=
  ⟨rfl, by simp⟩

/-- Claim C6 (amended): with the hint false, an invalid candidate that is not a
sequence yields `Failure(raw_text, none)` — the validation error messages are
discarded — while a sequence containing an invalid element yields
`Failure(raw_text, some e)` carrying that element's validation error message. -/
theorem resolve_failure_shape
    (candidate : Json) (raw_text : String) (e : String)
    (hval : MarketplaceItems.model_validate candidate = .error e) :
    (candidate.isArr = false →
      resolve candidate false raw_text = .ok (.Failure raw_text none)) ∧
    (∀ elems e', candidate = .arr elems → validateAll elems = .error e' →
      resolve candidate false raw_text = .ok (.Failure raw_text (some e'))) := by
  constructor
  · intro hna
    have hb : bareListStep candidate raw_text = .Failure raw_text none := by
      cases candidate <;> simp [Json.isArr] at hna ⊢ <;> rfl
    simp [resolve, secondaryAttempt, hval, hb]
  · intro elems e' hc hv
    subst hc
    simp [resolve, secondaryAttempt, hval, bareListStep, hv]

/-- Witness for the amended claim C6 at the non-sequence candidate `7`. -/
theorem resolve_failure_shape_witness :
    MarketplaceItems.model_validate (.num 7) =
      .error "Input should be a valid dictionary or instance of MarketplaceItems" ∧
    Json.isArr (.num 7) = false ∧
    resolve (.num 7) false "seven" = .ok (.Failure "seven" none) :=
  ⟨rfl, rfl, (resolve_failure_shape (.num 7) "seven" _ rfl).1 rfl⟩

/-- Claim C9: item validation ignores extra fields — any object whose four required
fields are present with string values validates to exactly those four values,
whatever other fields it carries, and the resulting record holds nothing else. -/
theorem item_validate_ignores_extra_fields
    (kvs : List (String × Json)) (t p l tp : String)
    (ht : lookupField kvs "title" = some (.str t))
    (hp : lookupField kvs "price" = some (.str p))
    (hl : lookupField kvs "location" = some (.str l))
    (htp : lookupField kvs "time_posted" = some (.str tp)) :
    MarketplaceItem.model_validate (.obj kvs) = .ok ⟨t, p, l, tp⟩ := by
  simp [MarketplaceItem.model_validate, requireStrField, ht, hp, hl, htp]

/-- Witness for claim C9: an object carrying an extra `condition` field still
validates, and the record holds only the four required fields. -/
theorem item_validate_ignores_extra_fields_witness :
    lookupField [("title", Json.str "Desk"), ("price", Json.str "$20"),
                 ("location", Json.str "City"), ("time_posted", Json.str "2 days"),
                 ("condition", Json.str "used")] "title" = some (Json.str "Desk") ∧
    MarketplaceItem.model_validate
      (.obj [("title", Json.str "Desk"), ("price", Json.str "$20"),
             ("location", Json.str "City"), ("time_posted", Json.str "2 days"),
             ("condition", Json.str "used")]) = .ok ⟨"Desk", "$20", "City", "2 days"⟩ :=
  ⟨rfl, item_validate_ignores_extra_fields
    [("title", Json.str "Desk"), ("price", Json.str "$20"),
     ("location", Json.str "City"), ("time_posted", Json.str "2 days"),
     ("condition", Json.str "used")] "Desk" "$20" "City" "2 days" rfl rfl rfl rfl⟩

end FacebookMarketplace
